import Mathlib

set_option linter.unusedSectionVars false

/-!
Shallow embedding of `src/src/prediction/predictor_model.py`: a wrapper class
`Forecaster` that fits one TBATS model per entity of a panel dataset, with
batched parallel fitting, optional history truncation, per-entity prediction
dispatch and whole-object persistence.  The statistical fitting itself is
delegated to the external darts library and stays opaque here (a function
parameter producing an opaque `Model`).  Pandas frames are represented
structurally: a panel is a list of rows carrying identifier, time and target
columns; per-entity frames are lists of rows without the identifier column.
-/

/-- Target values carried by the panel's target column. -/
abbrev Val := Int

/-- Python exceptions the modelled code paths can raise: NotFittedError from
predict and save, KeyError from groupby get_group, AttributeError from calling
insert on the None that `_predict_on_series` returns for a missing model, and
ValueError from pd.concat applied to an empty list. -/
inductive PyErr where
  | notFitted
  | keyError
  | attributeError
  | valueError
  deriving DecidableEq

/-- One row of a per-entity frame after the identifier column is dropped:
the time column and the target column. -/
structure SRow where
  time : Nat
  target : Val
  deriving DecidableEq

/-- One row of the panel dataset: identifier, time and target columns. -/
structure Row (Id : Type) where
  id : Id
  time : Nat
  target : Val
  deriving DecidableEq

/-- An opaque fitted model.  `predictFn n` stands for `model.predict(n)`
followed by selecting the target column: darts returns a forecast series with
exactly `n` values, recorded in `predict_len`. -/
structure Model where
  predictFn : Nat → List Val
  predict_len : ∀ n, (predictFn n).length = n

/-- Schema of the panel.  Identifier and time columns are structural in the
embedding (fields of `Row`), so only the target column name (needed by the
final column rename of predict) and the forecast horizon appear. -/
structure ForecastingSchema where
  forecast_length : Nat
  target : String
  deriving DecidableEq

/-- The seasonal_periods constructor argument: the string "freq", None, or an
explicit list of period lengths. -/
inductive SeasonalSpec where
  | freq
  | noSeason
  | periods (ps : List Nat)
  deriving DecidableEq

/-- Constructor arguments of `Forecaster.__init__` other than the schema.
`historyForecastMult` models the history-to-forecast multiplier argument
(an optional int, None by default). -/
structure HyperParams where
  historyForecastMult : Option Nat := none
  use_box_cox : Option Bool := none
  box_cox_bounds : Int × Int := (0, 1)
  use_trend : Option Bool := none
  use_damped_trend : Option Bool := none
  seasonal_periods : SeasonalSpec := SeasonalSpec.freq
  use_arma_errors : Option Bool := some true
  random_state : Int := 0
  deriving DecidableEq

/-- The `Forecaster` object state: configuration plus the fitted ensemble
(`models`, a dict from entity identifier to fitted model, kept as an
association list whose keys fit makes distinct), the trained flag and the
list of entity identifiers recorded at fit time. -/
structure Forecaster (Id : Type) where
  data_schema : ForecastingSchema
  hyper : HyperParams
  is_trained : Bool
  models : List (Id × Model)
  history_length : Option Nat
  all_ids : List Id

/-- CPUS_TO_USE = max(1, cpu_count() - 1): one CPU is spared for other tasks. -/
def CPUS_TO_USE (cpu_count : Nat) : Nat := max 1 (cpu_count - 1)

/-- Number of CPUs each batch can use. -/
def NUM_CPUS_PER_BATCH : Nat := 1

/-- Fixed filename of the persisted blob inside the model directory. -/
def PREDICTOR_FILE_NAME : String := "predictor.joblib"

variable {Id : Type} [LinearOrder Id] [DecidableEq Id]

/-- Lookup in the models dict (`self.models.get(key)` / `self.models[key]`).
fit stores one model per distinct id, so first-match lookup coincides with
Python's dict lookup on every state fit produces. -/
def dictGet : List (Id × Model) → Id → Option Model
  | [], _ => none
  | p :: rest, g => if p.1 = g then some p.2 else dictGet rest g

/-- `groups_by_ids.get_group(g).drop(columns=id_col)`: the rows of entity `g`
in their original row order, with the identifier column removed.  pandas
groupby preserves the within-group row order. -/
def rowsOfId (rows : List (Row Id)) (g : Id) : List SRow :=
  (rows.filter (fun r => r.id = g)).map (fun r => { time := r.time, target := r.target })

/-- `list(history.groupby(id_col).groups.keys())`: pandas groupby sorts the
group keys (sort=True is the default), so the recorded ids are the distinct
identifiers of the panel in ascending order. -/
def sortedUniqueIds (rows : List (Row Id)) : List Id :=
  List.insertionSort (· ≤ ·) ((rows.map (fun r => r.id)).dedup)

/-- The batch slices `all_series[i:i+series_per_batch]` for i = 0, spb, 2·spb, …:
contiguous chunks of size `k + 1` (the code's chunk size is always at least 1). -/
def chunkList {α : Type} (k : Nat) : List α → List (List α)
  | [] => []
  | a :: l => (a :: l.take k) :: chunkList k (l.drop k)
termination_by l => l.length
decreasing_by
  simp only [List.length_drop, List.length_cons]
  omega

/-- series_per_batch: 1 when there are at most num_parallel_batches ids,
otherwise 1 + len(all_ids) // num_parallel_batches. -/
def seriesPerBatch (npb n : Nat) : Nat := if n ≤ npb then 1 else 1 + n / npb

/-- Signature of `_fit_on_series`: darts TBATS construction (from the
forecaster's hyperparameters) plus TimeSeries conversion and fit.  The
statistical fitting is delegated to the external library and kept opaque. -/
def FitFn (Id : Type) := Forecaster Id → ForecastingSchema → List SRow → Model

/-- The history truncation of fit_batch_of_series: `series[-self.history_length:]`
guarded by `if self.history_length:`.  None and 0 are falsy in Python, and for
hl ≥ 1 the slice keeps the trailing hl rows (all rows when the series is
shorter). -/
def Forecaster.truncateHist (f : Forecaster Id) (series : List SRow) : List SRow :=
  match f.history_length with
  | none => series
  | some hl => if hl = 0 then series else series.drop (series.length - hl)

/-- fit_batch_of_series: one model per (series, id) pair of the batch, with the
optional history truncation applied before the per-series fit; returns the
partial id-to-model dict in iteration order. -/
def Forecaster.fit_batch_of_series (fitOn : FitFn Id) (f : Forecaster Id)
    (series_batch : List (List SRow)) (ids_batch : List Id)
    (data_schema : ForecastingSchema) : List (Id × Model) :=
  (series_batch.zip ids_batch).map
    (fun p => (p.2, fitOn f data_schema (f.truncateHist p.1)))

/-- Forecaster.fit: group the panel by identifier (sorted keys), slice the
series and ids into contiguous batches sized for the worker pool, fit every
batch (the multiprocessing Pool is a parallel map whose results come back in
submission order), merge the partial dicts, record the ids and mark the
forecaster trained.  np.random.seed only seeds numpy's global generator and is
not part of the object state. -/
def Forecaster.fit (fitOn : FitFn Id) (cpu_count : Nat) (f : Forecaster Id)
    (history : List (Row Id)) (data_schema : ForecastingSchema) : Forecaster Id :=
  let all_ids := sortedUniqueIds history
  let all_series := all_ids.map (rowsOfId history)
  let npb := CPUS_TO_USE cpu_count / NUM_CPUS_PER_BATCH
  let spb := seriesPerBatch npb all_ids.length
  let series_batches := chunkList (spb - 1) all_series
  let id_batches := chunkList (spb - 1) all_ids
  let results := (series_batches.zip id_batches).map
    (fun p => Forecaster.fit_batch_of_series fitOn f p.1 p.2 data_schema)
  { f with models := results.flatten, all_ids := all_ids, is_trained := true,
           data_schema := data_schema }

/-- Forecaster.__init__: stores the configuration; history_length is set to
forecast_length * multiplier only when the given multiplier is truthy
(not None and not 0), else it stays None. -/
def Forecaster.init (data_schema : ForecastingSchema) (hyper : HyperParams) :
    Forecaster Id :=
  { data_schema := data_schema, hyper := hyper, is_trained := false, models := [],
    all_ids := [],
    history_length :=
      match hyper.historyForecastMult with
      | none => none
      | some r => if r = 0 then none else some (data_schema.forecast_length * r) }

/-- Forecast output row: the identifier column that predict inserts at
position 0, the future period's time column, and the forecasted value. -/
structure OutRow (Id : Type) where
  id : Id
  time : Nat
  pred : Val
  deriving DecidableEq

/-- The combined forecast frame; `valCol` is the current name of the value
column: the schema's target name after the per-entity writes, the
caller-supplied prediction column name after the final rename. -/
structure OutFrame (Id : Type) where
  valCol : String
  rows : List (OutRow Id)
  deriving DecidableEq

/-- A per-entity frame value: either an independent copy of rows, or a view
into the caller's test frame.  pandas get_group followed by
drop(columns=id_col) without inplace returns a new DataFrame, so the code
only ever produces copies; the view constructor exists so the embedding can
express the aliasing alternative that would write back into test_data. -/
inductive FrameVal (Id : Type) where
  | copyOf (rows : List SRow)
  | viewOn (g : Id)
  deriving DecidableEq

/-- Reading a frame value: a copy carries its own rows, a view reads the
entity's rows out of the store. -/
def FrameVal.readFrame (store : List (Row Id)) : FrameVal Id → List SRow
  | FrameVal.copyOf rows => rows
  | FrameVal.viewOn g => rowsOfId store g

/-- Positional write of vals into the target column of the store's rows with
id `g`; only reachable through a view frame. -/
def writeThrough : List (Row Id) → Id → List Val → List (Row Id)
  | [], _, _ => []
  | r :: rest, g, vs =>
    if r.id = g then
      match vs with
      | [] => r :: writeThrough rest g []
      | v :: vtl => { r with target := v } :: writeThrough rest g vtl
    else r :: writeThrough rest g vs

/-- `future_df[target] = forecast.values`: writing the target column of a
frame, positionally.  A write into a copy leaves the store alone; a write
through a view would update the store's rows for that entity. -/
def writeTargetVals (store : List (Row Id)) (fv : FrameVal Id) (vals : List Val) :
    FrameVal Id × List (Row Id) :=
  match fv with
  | FrameVal.copyOf rows =>
      (FrameVal.copyOf (List.zipWith (fun r v => { r with target := v }) rows vals), store)
  | FrameVal.viewOn g => (FrameVal.viewOn g, writeThrough store g vals)

/-- `get_group(g).drop(columns=id_col)` inside predict: KeyError when `g` has
no rows in the test frame, otherwise a fresh copy of `g`'s future rows. -/
def getGroupDropEff (store : List (Row Id)) (g : Id) : Except PyErr (FrameVal Id) :=
  if rowsOfId store g = [] then Except.error PyErr.keyError
  else Except.ok (FrameVal.copyOf (rowsOfId store g))

/-- The `all_series` list comprehension of predict: one frame per known id, in
the order recorded at fit time; the first id without test rows raises
KeyError. -/
def collectSeriesEff (store : List (Row Id)) : List Id → Except PyErr (List (FrameVal Id))
  | [] => Except.ok []
  | g :: gs =>
    match getGroupDropEff store g with
    | Except.error e => Except.error e
    | Except.ok fv =>
      match collectSeriesEff store gs with
      | Except.error e => Except.error e
      | Except.ok rest => Except.ok (fv :: rest)

/-- Contents view of the same comprehension: the row lists that the copied
frames hold. -/
def collectSeries (store : List (Row Id)) : List Id → Except PyErr (List (List SRow))
  | [] => Except.ok []
  | g :: gs =>
    if rowsOfId store g = [] then Except.error PyErr.keyError
    else
      match collectSeries store gs with
      | Except.error e => Except.error e
      | Except.ok rest => Except.ok (rowsOfId store g :: rest)

/-- The forecast loop of predict.  `_predict_on_series` returns the written
future frame when a model is stored for the key and None otherwise; the caller
immediately runs `forecast.insert(0, id_col, id_)`, which on None raises
AttributeError, so a missing model aborts the loop with that error.  The
caller's test frame is threaded as the store so that frame writes are
accounted for. -/
def Forecaster.forecastLoopEff (f : Forecaster Id) :
    List (Row Id) → List (Id × FrameVal Id) →
      Except PyErr (List (List (OutRow Id))) × Forecaster Id × List (Row Id)
  | store, [] => (Except.ok [], f, store)
  | store, (g, fv) :: rest =>
    match dictGet f.models g with
    | none => (Except.error PyErr.attributeError, f, store)
    | some m =>
      let vals := m.predictFn (fv.readFrame store).length
      let wr := writeTargetVals store fv vals
      let outRows := ((wr.1).readFrame wr.2).map
        (fun r => ({ id := g, time := r.time, pred := r.target } : OutRow Id))
      match Forecaster.forecastLoopEff f wr.2 rest with
      | (Except.error e, f2, st2) => (Except.error e, f2, st2)
      | (Except.ok chunks, f2, st2) => (Except.ok (outRows :: chunks), f2, st2)

/-- `all_forecasts.rename(columns=...)`: the value column keeps its rows, only
its name changes when it matches the old name. -/
def renameTarget (fr : OutFrame Id) (oldName newName : String) : OutFrame Id :=
  if fr.valCol = oldName then { fr with valCol := newName } else fr

/-- Forecaster.predict with the caller's test frame threaded as mutable state:
returns (result, self after the call, test_data after the call).  The final
pd.concat raises ValueError when it gets an empty list (self.all_ids empty),
otherwise the concatenated frame's target column is renamed to the
caller-supplied name. -/
def Forecaster.predictEff (f : Forecaster Id) (test_data : List (Row Id)) (c : String) :
    Except PyErr (OutFrame Id) × Forecaster Id × List (Row Id) :=
  match f.is_trained with
  | false => (Except.error PyErr.notFitted, f, test_data)
  | true =>
    match collectSeriesEff test_data f.all_ids with
    | Except.error e => (Except.error e, f, test_data)
    | Except.ok frames =>
      match f.forecastLoopEff test_data (f.all_ids.zip frames) with
      | (Except.error e, f2, st2) => (Except.error e, f2, st2)
      | (Except.ok chunks, f2, st2) =>
        if chunks.isEmpty then (Except.error PyErr.valueError, f2, st2)
        else
          (Except.ok (renameTarget { valCol := f2.data_schema.target, rows := chunks.flatten }
            f2.data_schema.target c), f2, st2)

/-- Forecaster.predict's return value (the method returns the combined frame
and leaves all state as `predictEff` describes). -/
def Forecaster.predict (f : Forecaster Id) (test_data : List (Row Id)) (c : String) :
    Except PyErr (OutFrame Id) :=
  (f.predictEff test_data c).1

/-- Forecaster.save: refuses with NotFittedError when not fitted, else
joblib.dump serializes the whole object into the fixed file; the persisted
blob is modelled as the object value itself. -/
def Forecaster.save (f : Forecaster Id) : Except PyErr (Forecaster Id) :=
  match f.is_trained with
  | false => Except.error PyErr.notFitted
  | true => Except.ok f

/-- Forecaster.load: joblib.load reconstructs the serialized object from the
blob. -/
def Forecaster.load (blob : Forecaster Id) : Forecaster Id := blob

/-- The rows predict emits for a known entity that has a stored model: the
entity's future rows in their original order, each carrying the identifier,
the time value, and the forecast written into the value slot. -/
def entityForecastRows (f : Forecaster Id) (test : List (Row Id)) (g : Id) :
    List (OutRow Id) :=
  match dictGet f.models g with
  | some m =>
    List.zipWith (fun (r : SRow) v => ({ id := g, time := r.time, pred := v } : OutRow Id))
      (rowsOfId test g) (m.predictFn (rowsOfId test g).length)
  | none => []

/-- Helper of `firstAppearIds`: keep the first occurrence of every id. -/
def firstAppearAux (seen : List Id) : List Id → List Id
  | [] => []
  | a :: l => if a ∈ seen then firstAppearAux seen l else a :: firstAppearAux (a :: seen) l

/-- Modelled from the spec: the order in which entity identifiers first appear
in the panel's rows (the claimed "order derived from the panel's own iteration
order").  Only used to compare against the order the code actually records. -/
def firstAppearIds (rows : List (Row Id)) : List Id :=
  firstAppearAux [] (rows.map (fun r => r.id))

/-! ### Concrete instances used by closed witness and counterexample theorems -/

/-- A concrete fitted model forecasting a constant value. -/
def constModel (v : Val) : Model :=
  { predictFn := fun n => List.replicate n v,
    predict_len := fun n => List.length_replicate n v }

/-- A concrete external fitting routine for the witnesses. -/
def fitOnA : FitFn Nat := fun _ _ _ => constModel 7

/-- A concrete schema: horizon 3. -/
def schemaA : ForecastingSchema := { forecast_length := 3, target := "sales" }

/-- Default hyperparameters. -/
def hpA : HyperParams := {}

/-- Hyperparameters with the history multiplier set to 2. -/
def hpB : HyperParams := { historyForecastMult := some 2 }

/-- A trained forecaster state: two known entities, both with stored models. -/
def wfF : Forecaster Nat :=
  { data_schema := schemaA, hyper := hpA, is_trained := true,
    models := [(1, constModel 7), (2, constModel 9)], history_length := none,
    all_ids := [1, 2] }

/-- Test data with future rows for both known entities of `wfF`. -/
def wtd : List (Row Nat) :=
  [{ id := 1, time := 10, target := 0 }, { id := 1, time := 11, target := 0 },
   { id := 2, time := 10, target := 0 }]

/-- An untrained forecaster. -/
def ufF : Forecaster Nat := Forecaster.init schemaA hpA

/-- A trained state whose ensemble lacks a model for the known entity 1. -/
def bugF : Forecaster Nat :=
  { data_schema := schemaA, hyper := hpA, is_trained := true, models := [],
    history_length := none, all_ids := [1] }

/-- Future rows for entity 1, used against `bugF`. -/
def bugTd : List (Row Nat) := [{ id := 1, time := 10, target := 0 }]

/-- Test data containing only the unknown entity 3. -/
def cexTd : List (Row Nat) :=
  [{ id := 3, time := 10, target := 0 }, { id := 3, time := 11, target := 0 }]

/-- A panel whose rows list entity 2 before entity 1. -/
def histB : List (Row Nat) :=
  [{ id := 2, time := 0, target := 9 }, { id := 2, time := 1, target := 8 },
   { id := 1, time := 0, target := 7 }, { id := 1, time := 1, target := 6 }]

/-- A series of 7 observations, longer than horizon 3 times multiplier 2. -/
def sLong : List SRow :=
  [{ time := 0, target := 1 }, { time := 1, target := 2 }, { time := 2, target := 3 },
   { time := 3, target := 4 }, { time := 4, target := 5 }, { time := 5, target := 6 },
   { time := 6, target := 7 }]

/-- A series of 2 observations, shorter than the implied history length 6. -/
def sShort : List SRow := [{ time := 0, target := 1 }, { time := 1, target := 2 }]

/-! ### Helper lemmas about the batching and grouping primitives -/

theorem chunkList_ind {α : Type} (k : Nat) (motive : List α → Prop) (h0 : motive [])
    (hstep : ∀ a l, motive (l.drop k) → motive (a :: l)) : ∀ l, motive l := by
  have h : ∀ (n : Nat) (l : List α), l.length = n → motive l := by
    intro n
    induction n using Nat.strong_induction_on with
    | _ n ih =>
      intro l hn
      cases l with
      | nil => exact h0
      | cons a t =>
        refine hstep a t (ih (t.drop k).length ?_ (t.drop k) rfl)
        simp only [List.length_cons] at hn
        simp only [List.length_drop]
        omega
  exact fun l => h l.length l rfl

theorem chunkList_flatten {α : Type} (k : Nat) :
    ∀ l : List α, (chunkList k l).flatten = l := by
  refine chunkList_ind k _ ?_ ?_
  · simp [chunkList]
  · intro a t ih
    simp only [chunkList, List.flatten_cons, List.cons_append, ih]
    rw [List.take_append_drop]

theorem chunkList_length {α : Type} (k : Nat) :
    ∀ l : List α, (chunkList k l).length = (l.length + k) / (k + 1) := by
  refine chunkList_ind k _ ?_ ?_
  · simp [chunkList, Nat.div_eq_of_lt (Nat.lt_succ_self k)]
  · intro a t ih
    simp only [chunkList, List.length_cons, ih, List.length_drop]
    have h2 : t.length + 1 + k = t.length + (k + 1) := by omega
    rw [h2, Nat.add_div_right _ (Nat.succ_pos k)]
    rcases le_or_lt k t.length with h | h
    · have h1 : t.length - k + k = t.length := by omega
      rw [h1]
    · have h1 : t.length - k = 0 := by omega
      rw [h1, Nat.zero_add, Nat.div_eq_of_lt (by omega), Nat.div_eq_of_lt (by omega)]

theorem chunkList_map {α β : Type} (k : Nat) (g : α → β) :
    ∀ l : List α, chunkList k (l.map g) = (chunkList k l).map (List.map g) := by
  refine chunkList_ind k _ ?_ ?_
  · simp [chunkList]
  · intro a t ih
    have e1 : (t.map g).take k = (t.take k).map g := by
      induction t generalizing k with
      | nil => simp
      | cons x xs ihx => cases k <;> simp_all
    have e2 : (t.map g).drop k = (t.drop k).map g := by
      induction t generalizing k with
      | nil => simp
      | cons x xs ihx => cases k <;> simp_all
    simp only [List.map_cons, chunkList, e1, e2, ih]

theorem zip_map_left_self {α β : Type} (h : α → β) :
    ∀ l : List α, (l.map h).zip l = l.map (fun a => (h a, a)) := by
  intro l
  induction l with
  | nil => rfl
  | cons a t ih => simp [ih]

theorem zip_map_right_self {α β : Type} (h : α → β) :
    ∀ l : List α, l.zip (l.map h) = l.map (fun a => (a, h a)) := by
  intro l
  induction l with
  | nil => rfl
  | cons a t ih => simp [ih]

theorem sortedUniqueIds_perm (rows : List (Row Id)) :
    List.Perm (sortedUniqueIds rows) ((rows.map (fun r => r.id)).dedup) :=
  List.perm_insertionSort _ _

theorem sortedUniqueIds_nodup (rows : List (Row Id)) : (sortedUniqueIds rows).Nodup :=
  (sortedUniqueIds_perm rows).nodup_iff.mpr (List.nodup_dedup _)

theorem mem_sortedUniqueIds (rows : List (Row Id)) (g : Id) :
    g ∈ sortedUniqueIds rows ↔ ∃ r, r ∈ rows ∧ r.id = g := by
  rw [(sortedUniqueIds_perm rows).mem_iff, List.mem_dedup, List.mem_map]

theorem sortedUniqueIds_sorted (rows : List (Row Id)) :
    (sortedUniqueIds rows).Sorted (· ≤ ·) :=
  List.sorted_insertionSort _ _

theorem fit_batch_keys (fitOn : FitFn Id) (f : Forecaster Id) (ds : ForecastingSchema)
    (h : Id → List SRow) (ib : List Id) :
    (Forecaster.fit_batch_of_series fitOn f (ib.map h) ib ds).map Prod.fst = ib := by
  induction ib with
  | nil => rfl
  | cons g gs ih =>
    simp only [Forecaster.fit_batch_of_series, List.map_cons, List.zip_cons_cons] at ih ⊢
    rw [ih]

theorem flatten_map_fit_batches (fitOn : FitFn Id) (f : Forecaster Id)
    (ds : ForecastingSchema) (h : Id → List SRow) (k : Nat) (ids : List Id) :
    (((((chunkList k ids).map (List.map h)).zip (chunkList k ids)).map
      (fun p => Forecaster.fit_batch_of_series fitOn f p.1 p.2 ds)).flatten).map Prod.fst
        = ids := by
  rw [zip_map_left_self (List.map h) (chunkList k ids), List.map_map, List.map_flatten,
    List.map_map]
  trans ((chunkList k ids).map (fun ib => ib)).flatten
  · apply congrArg List.flatten
    apply List.map_congr_left
    intro ib _
    exact fit_batch_keys fitOn f ds h ib
  · simp [chunkList_flatten]

theorem fit_all_ids (fitOn : FitFn Id) (cpu_count : Nat) (f : Forecaster Id)
    (history : List (Row Id)) (ds : ForecastingSchema) :
    (Forecaster.fit fitOn cpu_count f history ds).all_ids = sortedUniqueIds history := rfl

theorem fit_is_trained (fitOn : FitFn Id) (cpu_count : Nat) (f : Forecaster Id)
    (history : List (Row Id)) (ds : ForecastingSchema) :
    (Forecaster.fit fitOn cpu_count f history ds).is_trained = true := rfl

theorem fit_models_keys (fitOn : FitFn Id) (cpu_count : Nat) (f : Forecaster Id)
    (history : List (Row Id)) (ds : ForecastingSchema) :
    (Forecaster.fit fitOn cpu_count f history ds).models.map Prod.fst
      = sortedUniqueIds history := by
  simp only [Forecaster.fit]
  rw [chunkList_map _ (rowsOfId history)]
  exact flatten_map_fit_batches fitOn f ds (rowsOfId history) _ _

theorem CPUS_TO_USE_pos (cpu_count : Nat) : 0 < CPUS_TO_USE cpu_count :=
  lt_of_lt_of_le Nat.zero_lt_one (le_max_left 1 (cpu_count - 1))

theorem chunkCount_le (npb n : Nat) (hnpb : 0 < npb) :
    (n + (seriesPerBatch npb n - 1)) / ((seriesPerBatch npb n - 1) + 1) ≤ npb := by
  unfold seriesPerBatch
  rcases le_or_lt n npb with h | h
  · rw [if_pos h]
    simpa using h
  · rw [if_neg (not_le_of_lt h)]
    have hq1 : 1 + n / npb - 1 = n / npb := Nat.add_sub_cancel_left 1 (n / npb)
    rw [hq1]
    obtain ⟨q, hq⟩ : ∃ q, n / npb = q := ⟨_, rfl⟩
    obtain ⟨m, hmm⟩ : ∃ m, n % npb = m := ⟨_, rfl⟩
    have hdm : npb * q + m = n := by rw [← hq, ← hmm]; exact Nat.div_add_mod n npb
    have hm : m < npb := by rw [← hmm]; exact Nat.mod_lt n hnpb
    rw [hq, ← Nat.lt_succ_iff, Nat.div_lt_iff_lt_mul (Nat.succ_pos q)]
    have hexp : (npb + 1) * (q + 1) = npb * q + npb + q + 1 := by ring
    rw [hexp]
    obtain ⟨P, hP⟩ : ∃ P, npb * q = P := ⟨_, rfl⟩
    rw [hP] at hdm ⊢
    omega

/-! ### Helper lemmas about the predict pipeline -/

theorem collectSeriesEff_eq_map (td : List (Row Id)) (ids : List Id) :
    collectSeriesEff td ids
      = Except.map (List.map FrameVal.copyOf) (collectSeries td ids) := by
  induction ids with
  | nil => rfl
  | cons g gs ih =>
    simp only [collectSeriesEff, collectSeries, getGroupDropEff]
    by_cases hg : rowsOfId td g = []
    · simp [hg, Except.map]
    · simp only [if_neg hg, ih]
      cases collectSeries td gs <;> simp [Except.map]

theorem collectSeries_ok (td : List (Row Id)) (ids : List Id)
    (h : ∀ g ∈ ids, rowsOfId td g ≠ []) :
    collectSeries td ids = Except.ok (ids.map (rowsOfId td)) := by
  induction ids with
  | nil => rfl
  | cons g gs ih =>
    have hg := h g (List.mem_cons_self g gs)
    simp only [collectSeries, if_neg hg,
      ih (fun x hx => h x (List.mem_cons_of_mem g hx)), List.map_cons]

theorem collectSeriesEff_ok (td : List (Row Id)) (ids : List Id)
    (h : ∀ g ∈ ids, rowsOfId td g ≠ []) :
    collectSeriesEff td ids
      = Except.ok (ids.map (fun g => FrameVal.copyOf (rowsOfId td g))) := by
  rw [collectSeriesEff_eq_map, collectSeries_ok td ids h]
  simp [Except.map]

theorem forecastLoopEff_copies (f : Forecaster Id) (store : List (Row Id))
    (td : List (Row Id)) (ids : List Id)
    (hm : ∀ g ∈ ids, (dictGet f.models g).isSome = true) :
    f.forecastLoopEff store (ids.map (fun g => (g, FrameVal.copyOf (rowsOfId td g))))
      = (Except.ok (ids.map (entityForecastRows f td)), f, store) := by
  induction ids generalizing store with
  | nil => rfl
  | cons g gs ih =>
    have h1 := hm g (List.mem_cons_self g gs)
    rcases hmg : dictGet f.models g with _ | m
    · rw [hmg] at h1
      simp at h1
    · simp only [List.map_cons, Forecaster.forecastLoopEff, hmg, writeTargetVals,
        FrameVal.readFrame,
        ih store (fun x hx => hm x (List.mem_cons_of_mem g hx)),
        entityForecastRows, List.map_zipWith]

theorem forecastLoopEff_state (f : Forecaster Id) (store : List (Row Id))
    (pairs : List (Id × FrameVal Id))
    (h : ∀ p ∈ pairs, ∃ rows, p.2 = FrameVal.copyOf rows) :
    (f.forecastLoopEff store pairs).2.1 = f
      ∧ (f.forecastLoopEff store pairs).2.2 = store := by
  induction pairs generalizing store with
  | nil => exact ⟨rfl, rfl⟩
  | cons p rest ih =>
    obtain ⟨rows, hp⟩ := h p (List.mem_cons_self p rest)
    obtain ⟨g, fv⟩ := p
    simp only at hp
    subst hp
    rcases hmg : dictGet f.models g with _ | m
    · simp [Forecaster.forecastLoopEff, hmg]
    · have ihr := ih store
        (fun q hq => h q (List.mem_cons_of_mem (g, FrameVal.copyOf rows) hq))
      simp only [Forecaster.forecastLoopEff, hmg, writeTargetVals, FrameVal.readFrame]
      rcases hres : f.forecastLoopEff store rest with ⟨res, f2, st2⟩
      rw [hres] at ihr
      rcases res with e | chunks <;> simpa using ihr

theorem predictEff_state (f : Forecaster Id) (td : List (Row Id)) (c : String) :
    (f.predictEff td c).2.1 = f ∧ (f.predictEff td c).2.2 = td := by
  rcases htr : f.is_trained with _ | _
  · simp [Forecaster.predictEff, htr]
  · simp only [Forecaster.predictEff, htr]
    rcases hcs : collectSeriesEff td f.all_ids with e | frames
    · simp
    · have hmap := collectSeriesEff_eq_map td f.all_ids
      rw [hcs] at hmap
      rcases hps : collectSeries td f.all_ids with e2 | ls
      · rw [hps] at hmap
        simp [Except.map] at hmap
      · rw [hps] at hmap
        simp only [Except.map] at hmap
        have hfr : frames = ls.map FrameVal.copyOf := by
          injection hmap
        have hcopy : ∀ p ∈ f.all_ids.zip frames, ∃ rows, p.2 = FrameVal.copyOf rows := by
          intro p hp
          have hp2 := (List.of_mem_zip hp).2
          rw [hfr] at hp2
          obtain ⟨rows, _, hr⟩ := List.mem_map.mp hp2
          exact ⟨rows, hr.symm⟩
        have hst := forecastLoopEff_state f td (f.all_ids.zip frames) hcopy
        rcases hres : f.forecastLoopEff td (f.all_ids.zip frames) with ⟨res, f2, st2⟩
        rw [hres] at hst
        dsimp only
        rw [hres]
        rcases res with e | chunks
        · simpa using hst
        · by_cases hch : chunks.isEmpty <;> simp [hch] <;> simp_all

theorem zipWith_proj_left {α β γ : Type} (g : α → γ) :
    ∀ (as : List α) (bs : List β), bs.length = as.length →
      List.zipWith (fun a _ => g a) as bs = as.map g := by
  intro as
  induction as with
  | nil => intro bs _; simp
  | cons a t ih =>
    intro bs h
    cases bs with
    | nil => simp at h
    | cons b bt =>
      simp only [List.zipWith_cons_cons, List.map_cons]
      rw [ih bt (by simpa using h)]

theorem entityForecastRows_length (f : Forecaster Id) (td : List (Row Id)) (g : Id)
    (hm : (dictGet f.models g).isSome = true) :
    (entityForecastRows f td g).length = (rowsOfId td g).length := by
  rcases hmg : dictGet f.models g with _ | m
  · rw [hmg] at hm
    simp at hm
  · simp [entityForecastRows, hmg, List.length_zipWith, m.predict_len]

theorem entityForecastRows_ids (f : Forecaster Id) (td : List (Row Id)) (g : Id)
    (hm : (dictGet f.models g).isSome = true) :
    (entityForecastRows f td g).map (fun r => r.id)
      = List.replicate (rowsOfId td g).length g := by
  rcases hmg : dictGet f.models g with _ | m
  · rw [hmg] at hm
    simp at hm
  · simp only [entityForecastRows, hmg, List.map_zipWith]
    have h1 := zipWith_proj_left (fun _ : SRow => g) (rowsOfId td g)
      (m.predictFn (rowsOfId td g).length) (m.predict_len _)
    have h2 : (rowsOfId td g).map (fun _ => g)
        = List.replicate (rowsOfId td g).length g := by
      simp [List.map_const']
    exact h1.trans h2

theorem entityForecastRows_times (f : Forecaster Id) (td : List (Row Id)) (g : Id)
    (hm : (dictGet f.models g).isSome = true) :
    (entityForecastRows f td g).map (fun r => r.time)
      = (rowsOfId td g).map (fun r => r.time) := by
  rcases hmg : dictGet f.models g with _ | m
  · rw [hmg] at hm
    simp at hm
  · simp only [entityForecastRows, hmg, List.map_zipWith]
    exact zipWith_proj_left (fun r : SRow => r.time) (rowsOfId td g)
      (m.predictFn (rowsOfId td g).length) (m.predict_len _)

/-! ### Claim theorems -/

/-- C1: the claim states that a known entity whose ensemble entry has no
stored model is silently dropped from predict's output with no error.  On the
code, `_predict_on_series` returns None for such an entity and predict
immediately runs `forecast.insert(0, id_col, id_)` on that None, raising
AttributeError.  Evaluated at a trained state whose known entity 1 has no
stored model and a test frame supplying a future row for entity 1: predict
raises instead of emitting no rows. -/
theorem C1_missing_model_raises :
    dictGet bugF.models 1 = none
      ∧ bugF.predict bugTd ("pred") = Except.error PyErr.attributeError :=
  ⟨rfl, rfl⟩

/-- C2: on every Forecaster on which fit has not completed (trained flag
false), predict raises the not-fitted error, and save raises the same
not-fitted error; both are returned directly to the caller. -/
theorem C2_not_fitted_errors (f : Forecaster Id) (h : f.is_trained = false) :
    (∀ td c, f.predict td c = Except.error PyErr.notFitted)
      ∧ f.save = Except.error PyErr.notFitted := by
  constructor
  · intro td c
    simp [Forecaster.predict, Forecaster.predictEff, h]
  · simp [Forecaster.save, h]

/-- Witness for C2 at a concrete untrained forecaster. -/
theorem C2_not_fitted_errors_witness :
    ufF.is_trained = false
      ∧ ufF.predict wtd ("pred") = Except.error PyErr.notFitted
      ∧ ufF.save = Except.error PyErr.notFitted :=
  ⟨rfl, (C2_not_fitted_errors ufF rfl).1 wtd ("pred"),
    (C2_not_fitted_errors ufF rfl).2⟩

/-- C3: for every trained Forecaster, save succeeds and yields the serialized
object, load reconstructs an equal object, and predict after the round trip
equals predict on the original instance on every test input. -/
theorem C3_save_load_round_trip (f : Forecaster Id) (h : f.is_trained = true) :
    f.save = Except.ok f ∧ Forecaster.load f = f
      ∧ ∀ td c, (Forecaster.load f).predict td c = f.predict td c := by
  refine ⟨?_, rfl, fun td c => rfl⟩
  simp [Forecaster.save, h]

/-- Witness for C3 at a concrete trained forecaster and test input. -/
theorem C3_save_load_round_trip_witness :
    wfF.is_trained = true ∧ wfF.save = Except.ok wfF
      ∧ (Forecaster.load wfF).predict wtd ("pred") = wfF.predict wtd ("pred") :=
  ⟨rfl, (C3_save_load_round_trip wfF rfl).1,
    (C3_save_load_round_trip wfF rfl).2.2 wtd ("pred")⟩

/-- C4 counterexample: a forecaster trained on entities 1 and 2 (both with
stored models), given test data containing only entity 3, raises KeyError —
get_group fails on the first known id — instead of returning a zero-row
output with no error, refuting the claim as stated. -/
theorem C4_unknown_entity_cex :
    wfF.predict cexTd ("pred") = Except.error PyErr.keyError := rfl

/-- C4 amended: with at least one known entity, predict applied to test data
whose rows all carry identifiers outside the known set raises KeyError: each
known id is looked up in the test grouping and the first lookup already
fails. -/
theorem C4_unknown_entity_amended (f : Forecaster Id) (td : List (Row Id)) (c : String)
    (ht : f.is_trained = true) (hne : f.all_ids ≠ [])
    (hmiss : ∀ r ∈ td, r.id ∉ f.all_ids) :
    f.predict td c = Except.error PyErr.keyError := by
  rcases hids : f.all_ids with _ | ⟨g, gs⟩
  · exact absurd hids hne
  · have hrg : rowsOfId td g = [] := by
      unfold rowsOfId
      rw [List.filter_eq_nil_iff.mpr ?_]
      · rfl
      · intro r hr
        simp only [decide_eq_true_eq]
        intro he
        refine hmiss r hr ?_
        rw [he, hids]
        exact List.mem_cons_self g gs
    simp only [Forecaster.predict, Forecaster.predictEff, ht, hids]
    simp [collectSeriesEff, getGroupDropEff, hrg]

/-- Witness for the amended C4 at concrete inputs. -/
theorem C4_unknown_entity_witness :
    wfF.is_trained = true ∧ wfF.all_ids ≠ []
      ∧ (∀ r ∈ cexTd, r.id ∉ wfF.all_ids)
      ∧ wfF.predict cexTd ("pred") = Except.error PyErr.keyError :=
  ⟨rfl, by decide, by decide,
    C4_unknown_entity_amended wfF cexTd ("pred") rfl (by decide) (by decide)⟩

/-- C5: when the history multiplier is configured (a nonzero value r — the
code's truthiness test treats None and 0 as unconfigured) and the forecast
horizon is positive, init stores history_length = forecast_length * r; the
truncation applied to each entity's series before fitting keeps exactly the
most recent forecast_length * r observations (a suffix of the series of
length min(len, forecast_length * r), so never padded and never an error),
it is the identity on any series of at most that length, and
fit_batch_of_series fits every series after exactly this truncation. -/
theorem C5_history_truncation {Id : Type} [LinearOrder Id] [DecidableEq Id]
    (ds : ForecastingSchema) (hp : HyperParams) (r : Nat)
    (hr : hp.historyForecastMult = some r) (hpos : 0 < r)
    (hfl : 0 < ds.forecast_length) :
    (Forecaster.init ds hp : Forecaster Id).history_length
        = some (ds.forecast_length * r)
    ∧ (∀ s : List SRow, (Forecaster.init ds hp : Forecaster Id).truncateHist s
        = s.drop (s.length - ds.forecast_length * r))
    ∧ (∀ s : List SRow, ((Forecaster.init ds hp : Forecaster Id).truncateHist s).length
        = min s.length (ds.forecast_length * r))
    ∧ (∀ s : List SRow,
        List.IsSuffix ((Forecaster.init ds hp : Forecaster Id).truncateHist s) s)
    ∧ (∀ s : List SRow, s.length ≤ ds.forecast_length * r →
        (Forecaster.init ds hp : Forecaster Id).truncateHist s = s)
    ∧ (∀ (fitOn : FitFn Id) (sb : List (List SRow)) (ib : List Id),
        Forecaster.fit_batch_of_series fitOn (Forecaster.init ds hp) sb ib ds
          = (sb.zip ib).map (fun p =>
              (p.2, fitOn (Forecaster.init ds hp) ds
                (p.1.drop (p.1.length - ds.forecast_length * r))))) := by
  have hN : 0 < ds.forecast_length * r := Nat.mul_pos hfl hpos
  have hinit : (Forecaster.init ds hp : Forecaster Id).history_length
      = some (ds.forecast_length * r) := by
    simp only [Forecaster.init, hr]
    rw [if_neg (by omega)]
  have htr : ∀ s : List SRow, (Forecaster.init ds hp : Forecaster Id).truncateHist s
      = s.drop (s.length - ds.forecast_length * r) := by
    intro s
    simp only [Forecaster.truncateHist, hinit]
    rw [if_neg (by omega)]
  refine ⟨hinit, htr, ?_, ?_, ?_, ?_⟩
  · intro s
    rw [htr s, List.length_drop]
    omega
  · intro s
    rw [htr s]
    exact List.drop_suffix _ _
  · intro s hs
    rw [htr s]
    have h0 : s.length - ds.forecast_length * r = 0 := by omega
    rw [h0, List.drop_zero]
  · intro fitOn sb ib
    unfold Forecaster.fit_batch_of_series
    apply List.map_congr_left
    intro p _
    rw [htr p.1]

/-- Witness for C5 at concrete inputs: horizon 3, multiplier 2, one series of
7 observations (truncated to the most recent 6) and one of 2 (unchanged). -/
theorem C5_history_truncation_witness :
    hpB.historyForecastMult = some 2 ∧ 0 < 2 ∧ 0 < schemaA.forecast_length
      ∧ (Forecaster.init schemaA hpB : Forecaster Nat).truncateHist sLong
          = sLong.drop (sLong.length - schemaA.forecast_length * 2)
      ∧ (Forecaster.init schemaA hpB : Forecaster Nat).truncateHist sShort = sShort :=
  ⟨rfl, by decide, by decide,
    (C5_history_truncation schemaA hpB 2 rfl (by decide) (by decide)).2.1 sLong,
    (C5_history_truncation schemaA hpB 2 rfl (by decide) (by decide)).2.2.2.2.1 sShort
      (by decide)⟩

/-- C6: fit on a non-empty panel splits the ordered id list (and with it the
per-entity series, sliced with the same indices) into contiguous batches
whose concatenation is the original list, the number of batches is at most
max(1, cpu_count - 1), and the merged ensemble holds exactly one fitted model
per entity present in the training data: the ensemble's key list is exactly
the recorded id list, which is duplicate-free and contains an id iff some
training row carries it. -/
theorem C6_fit_batches_and_ensemble (fitOn : FitFn Id) (cpu_count : Nat)
    (f : Forecaster Id) (history : List (Row Id)) (ds : ForecastingSchema)
    (hne : history ≠ []) :
    (chunkList (seriesPerBatch (CPUS_TO_USE cpu_count / NUM_CPUS_PER_BATCH)
        (sortedUniqueIds history).length - 1) (sortedUniqueIds history)).flatten
      = sortedUniqueIds history
    ∧ (chunkList (seriesPerBatch (CPUS_TO_USE cpu_count / NUM_CPUS_PER_BATCH)
        (sortedUniqueIds history).length - 1) (sortedUniqueIds history)).length
      ≤ CPUS_TO_USE cpu_count
    ∧ (Forecaster.fit fitOn cpu_count f history ds).all_ids = sortedUniqueIds history
    ∧ (Forecaster.fit fitOn cpu_count f history ds).models.map Prod.fst
      = sortedUniqueIds history
    ∧ (sortedUniqueIds history).Nodup
    ∧ (∀ g, g ∈ sortedUniqueIds history ↔ ∃ r, r ∈ history ∧ r.id = g) := by
  refine ⟨chunkList_flatten _ _, ?_,
    fit_all_ids fitOn cpu_count f history ds,
    fit_models_keys fitOn cpu_count f history ds,
    sortedUniqueIds_nodup history,
    fun g => mem_sortedUniqueIds history g⟩
  rw [chunkList_length]
  simp only [NUM_CPUS_PER_BATCH, Nat.div_one]
  exact chunkCount_le (CPUS_TO_USE cpu_count) (sortedUniqueIds history).length
    (CPUS_TO_USE_pos cpu_count)

/-- Witness for C6 at a concrete panel of two entities and cpu_count 4. -/
theorem C6_fit_batches_witness :
    histB ≠ []
      ∧ (Forecaster.fit fitOnA 4 (Forecaster.init schemaA hpA) histB schemaA).models.map
          Prod.fst = sortedUniqueIds histB :=
  ⟨by decide,
    (C6_fit_batches_and_ensemble fitOnA 4 (Forecaster.init schemaA hpA) histB schemaA
      (by decide)).2.2.2.1⟩

/-- C7: for a trained Forecaster whose known entities (a nonempty list — the
final concat errors when there are none) each have a stored model and at
least one supplied future row, predict succeeds; the output's value column
carries the caller-supplied name, its rows are the concatenation, over the
known ids in the order recorded at fit time, of the per-entity forecast rows,
and per entity these have exactly as many rows as future rows were supplied,
every row tagged with the entity's identifier, times in the supplied order. -/
theorem C7_predict_shape (f : Forecaster Id) (td : List (Row Id)) (c : String)
    (ht : f.is_trained = true) (hne : f.all_ids ≠ [])
    (hm : ∀ g ∈ f.all_ids, (dictGet f.models g).isSome = true)
    (hrows : ∀ g ∈ f.all_ids, rowsOfId td g ≠ []) :
    f.predict td c
      = Except.ok (OutFrame.mk c ((f.all_ids.map (entityForecastRows f td)).flatten))
    ∧ (∀ g ∈ f.all_ids, (entityForecastRows f td g).length = (rowsOfId td g).length)
    ∧ (∀ g ∈ f.all_ids, (entityForecastRows f td g).map (fun r => r.id)
        = List.replicate (rowsOfId td g).length g)
    ∧ (∀ g ∈ f.all_ids, (entityForecastRows f td g).map (fun r => r.time)
        = (rowsOfId td g).map (fun r => r.time)) := by
  refine ⟨?_, fun g hg => entityForecastRows_length f td g (hm g hg),
    fun g hg => entityForecastRows_ids f td g (hm g hg),
    fun g hg => entityForecastRows_times f td g (hm g hg)⟩
  simp only [Forecaster.predict, Forecaster.predictEff, ht]
  rw [collectSeriesEff_ok td f.all_ids hrows]
  dsimp only
  rw [zip_map_right_self (fun g => FrameVal.copyOf (rowsOfId td g)) f.all_ids]
  rw [forecastLoopEff_copies f td td f.all_ids hm]
  dsimp only
  have hch : (f.all_ids.map (entityForecastRows f td)).isEmpty = false := by
    rcases hids : f.all_ids with _ | ⟨g, gs⟩
    · exact absurd hids hne
    · rfl
  rw [hch]
  simp [renameTarget]

/-- Witness for C7 at a concrete trained forecaster: two entities, two and one
future rows respectively. -/
theorem C7_predict_shape_witness :
    wfF.is_trained = true ∧ wfF.all_ids ≠ []
      ∧ (∀ g ∈ wfF.all_ids, (dictGet wfF.models g).isSome = true)
      ∧ (∀ g ∈ wfF.all_ids, rowsOfId wtd g ≠ [])
      ∧ wfF.predict wtd ("pred")
        = Except.ok (OutFrame.mk ("pred")
            ((wfF.all_ids.map (entityForecastRows wfF wtd)).flatten)) :=
  ⟨rfl, by decide, by decide, by decide,
    (C7_predict_shape wfF wtd ("pred") rfl (by decide) (by decide) (by decide)).1⟩

/-- C8 counterexample: on a panel whose rows list entity 2 before entity 1,
fit records the id list [1, 2] (pandas groupby sorts the group keys) while
the first-appearance order of the panel's rows is [2, 1]; the recorded order
differs from the claimed one. -/
theorem C8_fit_order_cex :
    (Forecaster.fit fitOnA 4 (Forecaster.init schemaA hpA) histB schemaA).all_ids = [1, 2]
      ∧ firstAppearIds histB = [2, 1]
      ∧ (Forecaster.fit fitOnA 4 (Forecaster.init schemaA hpA) histB schemaA).all_ids
        ≠ firstAppearIds histB :=
  ⟨rfl, rfl, by decide⟩

/-- C8 amended: fit records the known entity identifiers in ascending sorted
order of the distinct identifiers present in the panel (pandas groupby sorts
group keys with sort=True, its default), not in first-appearance order: the
recorded list is sorted, duplicate-free, and contains an identifier iff some
row of the panel carries it. -/
theorem C8_fit_order_amended (fitOn : FitFn Id) (cpu_count : Nat) (f : Forecaster Id)
    (history : List (Row Id)) (ds : ForecastingSchema) :
    (Forecaster.fit fitOn cpu_count f history ds).all_ids = sortedUniqueIds history
    ∧ ((Forecaster.fit fitOn cpu_count f history ds).all_ids).Sorted (· ≤ ·)
    ∧ ((Forecaster.fit fitOn cpu_count f history ds).all_ids).Nodup
    ∧ (∀ g, g ∈ (Forecaster.fit fitOn cpu_count f history ds).all_ids
        ↔ ∃ r, r ∈ history ∧ r.id = g) :=
  ⟨rfl, sortedUniqueIds_sorted history, sortedUniqueIds_nodup history,
    fun g => mem_sortedUniqueIds history g⟩

/-- C9: predict mutates no Forecaster state — the effectful embedding, which
threads self through every statement of the method, returns the ensemble, the
trained flag and every other field unchanged — and calling predict again on
the state and test frame resulting from the first call yields an identical
output. -/
theorem C9_predict_idempotent_pure (f : Forecaster Id) (td : List (Row Id)) (c : String) :
    (f.predictEff td c).2.1 = f ∧ (f.predictEff td c).2.2 = td
      ∧ (((f.predictEff td c).2.1).predictEff ((f.predictEff td c).2.2) c).1
        = (f.predictEff td c).1 := by
  obtain ⟨h1, h2⟩ := predictEff_state f td c
  exact ⟨h1, h2, by rw [h1, h2]⟩

/-- C10: every per-entity frame predict operates on is a fresh copy produced
by dropping the identifier column — the grouping comprehension equals, frame
by frame, an independent copy of the pure dropped rows — and the
caller-supplied test_data is returned unchanged by predict. -/
theorem C10_predict_copies_test_data (f : Forecaster Id) (td : List (Row Id))
    (c : String) (ids : List Id) :
    collectSeriesEff td ids
        = Except.map (List.map FrameVal.copyOf) (collectSeries td ids)
      ∧ (f.predictEff td c).2.2 = td :=
  ⟨collectSeriesEff_eq_map td ids, (predictEff_state f td c).2⟩
